import Mathlib

/-!
Verification of the seller-collection pipeline (fairy repository).

Shallow embedding of:
- src/modules/analyzer/anime_filter.py (AnimeFilter)
- src/modules/scraper/rapras_scraper.py (RaprasScraper.fetch_seller_links, retry delays)
- src/modules/scraper/yahoo_scraper.py (retry delays)
- src/modules/scraper/session_manager.py (SessionManager)
- src/modules/storage/csv_exporter.py (CSVExporter)
- src/main.py (process_sellers)
-/

/-- Accumulating splitter behind `pySplitWS`: `acc` holds the characters of
the current word in reverse. -/
def splitWSAux : List Char → List Char → List String
  | [], acc => if acc = [] then [] else [String.mk acc.reverse]
  | c :: cs, acc =>
    if c.isWhitespace then
      if acc = [] then splitWSAux cs []
      else String.mk acc.reverse :: splitWSAux cs []
    else splitWSAux cs (c :: acc)

/-- Embedding of the Python `str.split()` with no arguments: split on runs of
whitespace, discarding empty pieces. -/
def pySplitWS (s : String) : List String :=
  splitWSAux s.toList []

/-- Embedding of the Python `str.strip()` with no arguments: drop leading and
trailing whitespace characters. -/
def pyStrip (s : String) : String :=
  String.mk (((s.toList.dropWhile Char.isWhitespace).reverse.dropWhile
      Char.isWhitespace).reverse)

/-- Embedding of the Python substring test `needle in hay`. -/
def strContains (hay needle : String) : Bool :=
  (List.range (hay.toList.length + 1)).any
    (fun i => needle.toList.isPrefixOf (hay.toList.drop i))

/-- Value of a non-empty all-digit character run, `none` otherwise. -/
def digitsToNat (ds : List Char) : Option Nat :=
  if ds = [] then none
  else if ds.all Char.isDigit then
    some (ds.foldl (fun a c => a * 10 + (c.toNat - ('0').toNat)) 0)
  else none

/-- Embedding of the digit-string fragment of the Python `int(s)` builtin:
strip surrounding whitespace, allow an optional sign, then require a
non-empty run of decimal digits; anything else raises ValueError (`none`). -/
def pyInt (s : String) : Option Int :=
  match (pyStrip s).toList with
  | '+' :: ds => (digitsToNat ds).map Int.ofNat
  | '-' :: ds => (digitsToNat ds).map (fun n => -(Int.ofNat n))
  | ds => (digitsToNat ds).map Int.ofNat

/-- Embedding of `price_text.replace(",", "")`: the needle is a single
character, so replacing it by the empty string deletes every comma. -/
def removeComma (s : String) : String :=
  String.mk (s.toList.filter (fun c => c ≠ ','))

/-- Embedding of `.replace("円", "")`: the needle is a single character, so
replacing it by the empty string deletes every yen sign. -/
def removeYen (s : String) : String :=
  String.mk (s.toList.filter (fun c => c ≠ '円'))

/-! AnimeFilter (src/modules/analyzer/anime_filter.py). -/

/-- Embedding of `AnimeFilter._extract_title_words` with the default
`max_words = 2`: first two whitespace-separated words, joined by a space. -/
def extract_title_words (title : String) : String :=
  String.intercalate " " ((pySplitWS title).take 2)

/-- Embedding of `AnimeFilter._parse_gemini_response`. -/
def parse_gemini_response (response : String) : Bool :=
  let has_negative :=
    (["いいえ", "ではありません", "ではない"].any (fun neg => strContains response neg))
  let has_positive := strContains response "はい"
  if has_positive && !has_negative then true
  else if strContains response "アニメ" && !has_negative then true
  else false

/-- Outcome of one `subprocess.run` invocation of the Gemini CLI: either the
stdout text of a zero-exit run, or a failure (non-zero exit or timeout, both
of which `is_anime_title` converts to GeminiAPIError). -/
inductive ToolResult where
  | ok (stdout : String)
  | fail
deriving DecidableEq, Repr

/-- Outcome of one `AnimeFilter.is_anime_title(title)` call:
`skipped` when the truncated title is empty (returns False with no CLI
invocation), `answered b` when the CLI was invoked and its stdout parsed to
`b`, `raised` when the CLI was invoked and GeminiAPIError was raised. -/
inductive TitleOutcome where
  | skipped
  | answered (b : Bool)
  | raised
deriving DecidableEq, Repr

/-- Embedding of `AnimeFilter.is_anime_title`, with the external Gemini CLI
modelled as a function from the prompt to a `ToolResult`. -/
def run_is_anime_title (tool : String → ToolResult) (title : String) : TitleOutcome :=
  let extracted := extract_title_words title
  if pyStrip extracted = "" then .skipped
  else
    let prompt := "このタイトルはアニメ作品ですか?(タイトル: " ++ extracted ++ ")"
    match tool prompt with
    | .ok stdout => .answered (parse_gemini_response (pyStrip stdout))
    | .fail => .raised

/-- Embedding of the inner per-seller loop of `AnimeFilter.filter_sellers`:
returns the final `is_anime_seller` flag together with the number of external
CLI invocations made for this seller. The loop breaks at the first positive
answer; a GeminiAPIError is logged and the loop continues. -/
def filter_one (tool : String → ToolResult) : List String → Bool × Nat
  | [] => (false, 0)
  | t :: ts =>
    match run_is_anime_title tool t with
    | .skipped => filter_one tool ts
    | .answered true => (true, 1)
    | .answered false =>
      let r := filter_one tool ts
      (r.1, r.2 + 1)
    | .raised =>
      let r := filter_one tool ts
      (r.1, r.2 + 1)

/-- One-based index of the first title whose classification is positive
(`answered true`), `none` when no title classifies positive. -/
def firstPositiveIdx (tool : String → ToolResult) : List String → Option Nat
  | [] => none
  | t :: ts =>
    if run_is_anime_title tool t = .answered true then some 1
    else (firstPositiveIdx tool ts).map (fun n => n + 1)

/-- Number of titles in the list whose classification actually invokes the
external CLI (everything except the empty-title short circuit). -/
def countInvoked (tool : String → ToolResult) (ts : List String) : Nat :=
  (ts.filter (fun t => run_is_anime_title tool t ≠ TitleOutcome.skipped)).length

/-- Input seller dictionary of `filter_sellers`: each key is optional because
the code reads them with `seller.get(key, default)`. -/
structure SellerDict where
  seller_name : Option String
  seller_url : Option String
  product_titles : Option (List String)
deriving DecidableEq, Repr

/-- Output record of `filter_sellers`: the dictionary appended per seller has
exactly the keys seller_name, seller_url and is_anime_seller. -/
structure SellerOut where
  seller_name : String
  seller_url : String
  is_anime_seller : Bool
deriving DecidableEq, Repr

/-- Embedding of `AnimeFilter.filter_sellers`: the loop over sellers appends
one output record per input seller, in order. -/
def filter_sellers (tool : String → ToolResult) : List SellerDict → List SellerOut
  | [] => []
  | s :: rest =>
    { seller_name := s.seller_name.getD "Unknown"
      seller_url := s.seller_url.getD ""
      is_anime_seller := (filter_one tool (s.product_titles.getD [])).1 } ::
    filter_sellers tool rest

/-! RaprasScraper.fetch_seller_links (src/modules/scraper/rapras_scraper.py). -/

/-- One scraped table row of the sum_analyse page, as seen through the
queries of `fetch_seller_links`: `nameElem` is the inner text of
`td:nth-child(2)` when that element exists, `priceElem` the inner text of
`td:nth-child(5)` when it exists, and `linkElem` the `href` attribute of
`td:nth-child(2) a` when the anchor exists (the attribute itself may be
absent, hence the inner Option). -/
structure ScrapedRow where
  nameElem : Option String
  priceElem : Option String
  linkElem : Option (Option String)
deriving DecidableEq, Repr

/-- Embedding of `int(price_text.replace(",", "").replace("円", ""))`. -/
def parsePriceText (s : String) : Option Int :=
  pyInt (removeYen (removeComma s))

/-- One element of the list returned by `fetch_seller_links`. -/
structure SellerLink where
  seller_name : String
  total_price : Int
  link : Option String
deriving DecidableEq, Repr

/-- Embedding of the per-row body of the `for row in rows` loop of
`fetch_seller_links`: `continue` on a missing element, skip on a price that
fails numeric parsing (ValueError caught), skip below `min_price`, otherwise
append the seller. -/
def processRow (min_price : Int) (row : ScrapedRow) : Option SellerLink :=
  row.nameElem.bind fun name =>
    row.priceElem.bind fun ptext =>
      (parsePriceText ptext).bind fun price =>
        if price < min_price then none
        else
          row.linkElem.bind fun href =>
            some { seller_name := name, total_price := price, link := href }

/-- Embedding of the row loop of `fetch_seller_links`: surviving rows in page
order. -/
def fetch_seller_links_rows (rows : List ScrapedRow) (min_price : Int) : List SellerLink :=
  rows.filterMap (processRow min_price)

/-- The sum_analyse URL built by `fetch_seller_links` before its first page
request. -/
def sumAnalyseUrl (rapras_url sdate edate : String) : String :=
  rapras_url ++ "sum_analyse?target=epsum&updown=down&genre=all&sdate=" ++
    sdate ++ "&edate=" ++ edate

/-- First externally visible action of `fetch_seller_links`. -/
inductive FetchStart where
  | raiseRuntimeError
  | pageRequest (url : String)
deriving DecidableEq, Repr

/-- Embedding of everything `fetch_seller_links` does before touching the
results table: it raises RuntimeError when `self.page` is absent, and
otherwise immediately issues `page.goto` on the sum_analyse URL. The method
body performs no validation of the date strings or of `min_price` (they are
interpolated into the URL, `min_price` is only used later for filtering). -/
def fetch_seller_links_start (pageInitialized : Bool) (sdate edate : String)
    (min_price : Int) : FetchStart :=
  if pageInitialized then
    FetchStart.pageRequest (sumAnalyseUrl "https://www.rapras.jp/" sdate edate)
  else FetchStart.raiseRuntimeError

/-! Retry schedules (rapras_scraper.py lines 43-48, yahoo_scraper.py 63-66). -/

/-- Embedding of `RaprasScraper._max_retries = 3`. -/
def rapras_max_retries : Nat := 3

/-- Embedding of `RaprasScraper._retry_delays = [2**i for i in range(1, self._max_retries + 1)]`. -/
def rapras_retry_delays : List Nat :=
  (List.range' 1 rapras_max_retries).map (fun i => 2 ^ i)

/-- Embedding of `YahooAuctionScraper._retry_delays = [2, 4, 8]`. -/
def yahoo_retry_delays : List Nat := [2, 4, 8]

/-! Seller processing pipeline (src/main.py, process_sellers). -/

/-- Exception classes a per-seller fetch can raise; `process_one_seller`
catches exactly ConnectionError, TimeoutError and ValueError. -/
inductive PyError where
  | connectionError
  | timeoutError
  | valueError
  | other
deriving DecidableEq, Repr

/-- The except clause `(ConnectionError, TimeoutError, ValueError)` of
`process_one_seller`. -/
def caughtByProcessOneSeller : PyError → Bool
  | .connectionError => true
  | .timeoutError => true
  | .valueError => true
  | .other => false

/-- Embedding of the inner coroutine `process_one_seller`: a successful fetch
yields its record, a caught exception is logged and yields None, and any
other exception propagates. -/
def process_one_seller {α β : Type} (fetch : α → Except PyError β) (s : α) :
    Except PyError (Option β) :=
  match fetch s with
  | .ok d => .ok (some d)
  | .error e => if caughtByProcessOneSeller e then .ok none else .error e

/-- Embedding of `asyncio.gather(*tasks)`: the completed results in task
order; an uncaught exception from any unit propagates. -/
def gatherResults {α β : Type} (fetch : α → Except PyError β) :
    List α → Except PyError (List (Option β))
  | [] => .ok []
  | s :: rest =>
    match process_one_seller fetch s with
    | .error e => .error e
    | .ok r =>
      match gatherResults fetch rest with
      | .error e => .error e
      | .ok rs => .ok (r :: rs)

/-- Embedding of `process_sellers`: gather all units, then drop the None
results of the failed sellers. -/
def process_sellers {α β : Type} (fetch : α → Except PyError β) (links : List α) :
    Except PyError (List β) :=
  (gatherResults fetch links).map (fun completed => completed.filterMap id)

/-- The record of a successful fetch, `none` for a failed one. -/
def fetchSuccess {α β : Type} (fetch : α → Except PyError β) (s : α) : Option β :=
  match fetch s with
  | .ok d => some d
  | .error _ => none

/-- True when a fetch either succeeds or fails only with one of the three
exception classes `process_one_seller` catches. -/
def safeFetch {α β : Type} (fetch : α → Except PyError β) (s : α) : Bool :=
  match fetch s with
  | .ok _ => true
  | .error e => caughtByProcessOneSeller e

/-! SessionManager (src/modules/scraper/session_manager.py). -/

/-- Content of one session file: either the `json.dump` serialization of a
cookie list (which `json.load` inverts), or text that fails JSON parsing. -/
inductive FileContent (κ : Type) where
  | jsonOf (cookies : κ)
  | corrupt
deriving DecidableEq, Repr

/-- The session directory, as a map from file name to content; `none` means
the file does not exist. The directory path prefix is fixed per
SessionManager instance and elided. -/
def SessionFS (κ : Type) := String → Option (FileContent κ)

/-- Embedding of the file name `f"{service_name}_session.json"`. -/
def sessionFileName (service_name : String) : String :=
  service_name ++ "_session.json"

/-- Embedding of `SessionManager.save_session` when the write succeeds: the
serialized cookie list overwrites any prior file for that service. -/
def save_session {κ : Type} (fs : SessionFS κ) (service_name : String) (cookies : κ) :
    SessionFS κ :=
  fun p => if p = sessionFileName service_name then some (.jsonOf cookies) else fs p

/-- Embedding of `SessionManager.load_session`: None when the file does not
exist; None (after a logged warning, never an exception) when the content
fails JSON parsing; otherwise the parsed cookie list. Totality of this
function embeds the fact that every exception path is caught. -/
def load_session {κ : Type} (fs : SessionFS κ) (service_name : String) : Option κ :=
  match fs (sessionFileName service_name) with
  | none => none
  | some (.jsonOf cookies) => some cookies
  | some .corrupt => none

/-! CSVExporter (src/modules/storage/csv_exporter.py). -/

/-- Input record of the CSV exports: seller_name and seller_url are accessed
with mandatory indexing, is_anime_seller with `.get` (hence optional). -/
structure ExportSeller where
  seller_name : String
  seller_url : String
  is_anime_seller : Option Bool
deriving DecidableEq, Repr

/-- Embedding of `CSVExporter._map_is_anime_seller`. -/
def map_is_anime_seller : Option Bool → String
  | some true => "はい"
  | some false => "いいえ"
  | none => "未判定"

/-- The classification column of the intermediate CSV:
`["未判定" for _ in sellers]`. -/
def intermediate_flag_col (sellers : List ExportSeller) : List String :=
  sellers.map (fun _ => "未判定")

/-- Embedding of the DataFrame rows of `export_intermediate_csv`: the three
columns zipped into rows (name, url, classification text). -/
def export_intermediate_rows (sellers : List ExportSeller) :
    List (String × String × String) :=
  (sellers.map (fun s => s.seller_name)).zip
    ((sellers.map (fun s => s.seller_url)).zip (intermediate_flag_col sellers))

/-- The classification column of the final CSV:
`[self._map_is_anime_seller(s.get("is_anime_seller")) for s in sellers]`. -/
def final_flag_col (sellers : List ExportSeller) : List String :=
  sellers.map (fun s => map_is_anime_seller s.is_anime_seller)

/-- Embedding of the DataFrame rows of `export_final_csv`. -/
def export_final_rows (sellers : List ExportSeller) :
    List (String × String × String) :=
  (sellers.map (fun s => s.seller_name)).zip
    ((sellers.map (fun s => s.seller_url)).zip (final_flag_col sellers))

/-! Concrete instances used for evaluation. -/

/-- A Gemini CLI stub answering every prompt affirmatively. -/
def demoTool : String → ToolResult := fun _ => ToolResult.ok "はい"

/-- A Gemini CLI stub that answers affirmatively for prompts mentioning
ナルト and fails (GeminiAPIError) on every other prompt. -/
def demoTool2 : String → ToolResult := fun p =>
  if strContains p "ナルト" then ToolResult.ok "はい" else ToolResult.fail

/-- A title list whose classification raises on the first title, skips the
second (whitespace only), and answers positively on the third. -/
def demoTitles2 : List String := ["ブリーチ 千年血戦", " ", "ナルト 疾風伝"]

/-- A fetch over ten sellers (numbered 0..9) in which sellers 2, 5 and 7
raise ConnectionError and the rest succeed. -/
def fetch10 : Nat → Except PyError Nat := fun n =>
  if n = 2 ∨ n = 5 ∨ n = 7 then .error .connectionError else .ok n

/-! Theorems. Helper lemmas first, then one theorem per claim. -/

/-- A cons step of `countInvoked`. -/
theorem countInvoked_cons (tool : String → ToolResult) (t : String) (ts : List String) :
    countInvoked tool (t :: ts) =
      (if run_is_anime_title tool t = TitleOutcome.skipped then 0 else 1) +
        countInvoked tool ts := by
  by_cases h : run_is_anime_title tool t = TitleOutcome.skipped <;>
    simp [countInvoked, List.filter, h]
  · omega

/-- When every title raises GeminiAPIError, the per-seller loop returns a
negative flag after invoking the CLI once per title. -/
theorem filter_one_all_raised (tool : String → ToolResult) (ts : List String)
    (h : ∀ t ∈ ts, run_is_anime_title tool t = TitleOutcome.raised) :
    filter_one tool ts = (false, ts.length) := by
  induction ts with
  | nil => rfl
  | cons t ts ih =>
    have ht := h t (by simp)
    have ih' := ih (fun x hx => h x (by simp [hx]))
    simp [filter_one, ht, ih']

/-- When every unit of work fails only with caught exception classes,
`asyncio.gather` returns, in task order, one Option per seller. -/
theorem gatherResults_safe {α β : Type} (fetch : α → Except PyError β) (links : List α)
    (h : ∀ s ∈ links, safeFetch fetch s = true) :
    gatherResults fetch links = .ok (links.map (fetchSuccess fetch)) := by
  induction links with
  | nil => rfl
  | cons s rest ih =>
    have hs := h s (by simp)
    have ih' := ih (fun x hx => h x (by simp [hx]))
    cases hf : fetch s with
    | ok d => simp [gatherResults, process_one_seller, hf, ih', fetchSuccess]
    | error e =>
      have hc : caughtByProcessOneSeller e = true := by
        simpa [safeFetch, hf] using hs
      simp [gatherResults, process_one_seller, hf, hc, ih', fetchSuccess]

/-- Claim C1: for every list of seller links and every per-seller fetch that
fails only with ConnectionError, TimeoutError or ValueError on some subset of
the links, `process_sellers` returns exactly the records of the sellers whose
fetch succeeded (in input order) and excludes exactly the failed ones,
regardless of which positions failed. -/
theorem process_sellers_partial_failure {α β : Type} (fetch : α → Except PyError β)
    (links : List α) (h : ∀ s ∈ links, safeFetch fetch s = true) :
    process_sellers fetch links = .ok (links.filterMap (fetchSuccess fetch)) := by
  rw [process_sellers, gatherResults_safe fetch links h]
  simp [Except.map, List.filterMap_map]

/-- Witness for C1, matching the spec scenario: ten sellers of which three
(positions 2, 5 and 7) raise connection errors; the pipeline returns exactly
the seven surviving records. -/
theorem process_sellers_partial_failure_witness :
    process_sellers fetch10 (List.range 10) = .ok [0, 1, 3, 4, 6, 8, 9] := by
  have h := process_sellers_partial_failure fetch10 (List.range 10) (by decide)
  exact h.trans (congrArg Except.ok (by decide))

/-- Counterexample to claim C2 as stated: for the seller whose titles are a
whitespace-only title followed by a positively classified one, the first
positive title has 1-based index 2, yet only one external CLI invocation
occurs, because the whitespace-only title short-circuits inside
`is_anime_title` without invoking the CLI. -/
theorem filter_one_call_count_counterexample :
    firstPositiveIdx demoTool [" ", "ルフィ 海賊王"] = some 2 ∧
    filter_one demoTool [" ", "ルフィ 海賊王"] = (true, 1) ∧ (1 : Nat) ≠ 2 := by
  refine ⟨by decide, by decide, by decide⟩

/-- Claim C2 (amended): for every seller whose title list has a first
positively classified title at 1-based index k, the loop stops there (flag
true) and the number of external CLI invocations equals the number of titles
among the first k that are non-empty after truncation (empty titles
short-circuit without an invocation; titles whose classification raises are
still invocations and are skipped); no title after index k is submitted. -/
theorem filter_one_call_count (tool : String → ToolResult) (titles : List String)
    (k : Nat) (h : firstPositiveIdx tool titles = some k) :
    filter_one tool titles = (true, countInvoked tool (titles.take k)) := by
  induction titles generalizing k with
  | nil => simp [firstPositiveIdx] at h
  | cons t ts ih =>
    by_cases ht : run_is_anime_title tool t = TitleOutcome.answered true
    · rw [firstPositiveIdx, if_pos ht] at h
      obtain rfl : (1 : Nat) = k := by simpa using h
      simp [filter_one, ht, countInvoked, List.filter]
    · rw [firstPositiveIdx, if_neg ht] at h
      obtain ⟨k', hk', rfl⟩ : ∃ k', firstPositiveIdx tool ts = some k' ∧ k' + 1 = k := by
        cases hfp : firstPositiveIdx tool ts with
        | none => rw [hfp] at h; simp at h
        | some m => rw [hfp] at h; exact ⟨m, rfl, by simpa using h⟩
      have ih' := ih k' hk'
      cases hr : run_is_anime_title tool t with
      | skipped =>
        simp [filter_one, hr, ih', List.take, countInvoked_cons, hr]
      | answered b =>
        cases b with
        | true => exact absurd hr ht
        | false =>
          simp [filter_one, hr, ih', List.take, countInvoked_cons, hr]
          omega
      | raised =>
        simp [filter_one, hr, ih', List.take, countInvoked_cons, hr]
        omega

/-- Witness for the amended C2: titles raising, skipped and positive in that
order give first positive index 3 and exactly 2 CLI invocations. -/
theorem filter_one_call_count_witness :
    firstPositiveIdx demoTool2 demoTitles2 = some 3 ∧
    filter_one demoTool2 demoTitles2 = (true, countInvoked demoTool2 (demoTitles2.take 3)) ∧
    countInvoked demoTool2 (demoTitles2.take 3) = 2 := by
  exact ⟨by decide, filter_one_call_count demoTool2 demoTitles2 3 (by decide), by decide⟩

/-- Every seller surviving a row of `fetch_seller_links` has a total price at
or above the floor. -/
theorem processRow_price_ge (min_price : Int) (r : ScrapedRow) (s : SellerLink)
    (h : processRow min_price r = some s) : min_price ≤ s.total_price := by
  simp only [processRow, Option.bind_eq_some] at h
  obtain ⟨name, hn, ptext, hp, price, hv, h⟩ := h
  split at h
  · simp at h
  · simp only [Option.bind_eq_some] at h
    obtain ⟨href, hl, h⟩ := h
    obtain rfl := Option.some.inj h
    exact le_of_not_lt (by assumption)

/-- Claim C3: for every min_price and every scraped row whose elements are
present and whose price text parses to `price`, `fetch_seller_links` excludes
the seller when `price < min_price` and includes it when
`price = min_price`; consequently every returned seller has
`min_price ≤ total_price`. -/
theorem fetch_seller_links_price_floor (min_price : Int) (row : ScrapedRow)
    (name ptext : String) (price : Int) (href : Option String)
    (hn : row.nameElem = some name) (hp : row.priceElem = some ptext)
    (hv : parsePriceText ptext = some price) (hl : row.linkElem = some href) :
    (price < min_price → processRow min_price row = none) ∧
    (price = min_price →
      processRow min_price row =
        some { seller_name := name, total_price := price, link := href }) ∧
    ∀ rows s, s ∈ fetch_seller_links_rows rows min_price → min_price ≤ s.total_price := by
  refine ⟨?_, ?_, ?_⟩
  · intro hlt
    simp [processRow, hn, hp, hv, if_pos hlt]
  · intro heq
    subst heq
    simp [processRow, hn, hp, hv, hl]
  · intro rows s hs
    rw [fetch_seller_links_rows, List.mem_filterMap] at hs
    obtain ⟨r, _, hr⟩ := hs
    exact processRow_price_ge min_price r s hr

/-- Witness for C3: a row priced 150,000 yen is excluded under a 200,000
floor, and included when the floor equals the price exactly. -/
theorem fetch_seller_links_price_floor_witness :
    processRow 200000
      { nameElem := some "セラーA", priceElem := some "150,000円",
        linkElem := some (some "https://auctions.example/a") } = none ∧
    processRow 150000
      { nameElem := some "セラーA", priceElem := some "150,000円",
        linkElem := some (some "https://auctions.example/a") } =
      some { seller_name := "セラーA", total_price := 150000,
             link := some "https://auctions.example/a" } ∧
    150000 ≤
      (SellerLink.mk "セラーA" 150000 (some "https://auctions.example/a")).total_price := by
  refine ⟨?_, ?_, ?_⟩
  · exact (fetch_seller_links_price_floor 200000
      { nameElem := some "セラーA", priceElem := some "150,000円",
        linkElem := some (some "https://auctions.example/a") }
      "セラーA" "150,000円" 150000
      (some "https://auctions.example/a") rfl rfl (by decide) rfl).1 (by decide)
  · exact (fetch_seller_links_price_floor 150000
      { nameElem := some "セラーA", priceElem := some "150,000円",
        linkElem := some (some "https://auctions.example/a") }
      "セラーA" "150,000円" 150000
      (some "https://auctions.example/a") rfl rfl (by decide) rfl).2.1 rfl
  · exact (fetch_seller_links_price_floor 150000
      { nameElem := some "セラーA", priceElem := some "150,000円",
        linkElem := some (some "https://auctions.example/a") }
      "セラーA" "150,000円" 150000
      (some "https://auctions.example/a") rfl rfl (by decide) rfl).2.2
      [{ nameElem := some "セラーA", priceElem := some "150,000円",
         linkElem := some (some "https://auctions.example/a") }] _ (by decide)

/-- Claim C4, behavior of the code: `fetch_seller_links` performs no input
validation at all. With an initialized page, its first action on a malformed
start date, on a reversed date range, and on a negative price floor is the
page request to the sum_analyse URL, never a validation error; the repository
tests test_fetch_seller_links_invalid_date_format,
test_fetch_seller_links_invalid_date_range and
test_fetch_seller_links_negative_min_price instead expect ValueError before
any request. -/
theorem fetch_seller_links_start_unvalidated :
    fetch_seller_links_start true "2025/08/01" "2025-10-31" 100000 =
      FetchStart.pageRequest
        (sumAnalyseUrl "https://www.rapras.jp/" "2025/08/01" "2025-10-31") ∧
    fetch_seller_links_start true "2025-10-31" "2025-08-01" 100000 =
      FetchStart.pageRequest
        (sumAnalyseUrl "https://www.rapras.jp/" "2025-10-31" "2025-08-01") ∧
    fetch_seller_links_start true "2025-08-01" "2025-10-31" (-1) =
      FetchStart.pageRequest
        (sumAnalyseUrl "https://www.rapras.jp/" "2025-08-01" "2025-10-31") ∧
    ∀ sdate edate min_price,
      fetch_seller_links_start true sdate edate min_price =
        FetchStart.pageRequest (sumAnalyseUrl "https://www.rapras.jp/" sdate edate) :=
  ⟨rfl, rfl, rfl, fun _ _ _ => rfl⟩

/-- Claim C5: loading right after a successful save returns the saved cookie
list; loading a service with no session file, or one whose content fails to
parse as JSON, returns None (and, the embedding being total, never raises). -/
theorem session_save_load_roundtrip {κ : Type} (fs : SessionFS κ)
    (service_name : String) (cookies : κ) :
    load_session (save_session fs service_name cookies) service_name = some cookies ∧
    (fs (sessionFileName service_name) = none →
      load_session fs service_name = none) ∧
    (fs (sessionFileName service_name) = some FileContent.corrupt →
      load_session fs service_name = none) := by
  refine ⟨?_, ?_, ?_⟩
  · simp [load_session, save_session]
  · intro h; simp [load_session, h]
  · intro h; simp [load_session, h]

/-- Witness for C5 with a concrete cookie list and the rapras service. -/
theorem session_save_load_roundtrip_witness :
    load_session (save_session (fun _ => none) "rapras" [("sid", "abc")]) "rapras" =
      some [("sid", "abc")] ∧
    load_session (fun _ => (none : Option (FileContent (List (String × String)))))
      "rapras" = none ∧
    load_session (fun _ => some (FileContent.corrupt (κ := List (String × String))))
      "rapras" = none := by
  refine ⟨(session_save_load_roundtrip (fun _ => none) "rapras" [("sid", "abc")]).1,
    (session_save_load_roundtrip (fun _ => none) "rapras" [("sid", "abc")]).2.1 rfl,
    (session_save_load_roundtrip (fun _ => some FileContent.corrupt) "rapras"
      [("sid", "abc")]).2.2 rfl⟩

/-- Claim C6: a seller with an empty title list, and more generally a seller
all of whose titles raise GeminiAPIError, is marked is_anime_seller = false
by `filter_sellers` (a definite negative, not an unresolved state); with an
empty title list the CLI is invoked zero times. -/
theorem filter_sellers_no_titles_or_all_errors_negative (tool : String → ToolResult)
    (s : SellerDict)
    (h : ∀ t ∈ s.product_titles.getD [], run_is_anime_title tool t = TitleOutcome.raised) :
    filter_sellers tool [s] =
      [{ seller_name := s.seller_name.getD "Unknown",
         seller_url := s.seller_url.getD "",
         is_anime_seller := false }] ∧
    (s.product_titles.getD [] = [] →
      (filter_one tool (s.product_titles.getD [])).2 = 0) := by
  have h1 := filter_one_all_raised tool _ h
  constructor
  · simp [filter_sellers, h1]
  · intro he; rw [he]; rfl

/-- Witness for C6: a seller with zero titles is negative with zero CLI
invocations. -/
theorem filter_sellers_no_titles_negative_witness :
    filter_sellers (fun _ => ToolResult.fail)
      [{ seller_name := some "A", seller_url := some "https://a", product_titles := some [] }] =
      [{ seller_name := "A", seller_url := "https://a", is_anime_seller := false }] ∧
    (filter_one (fun _ => ToolResult.fail) []).2 = 0 := by
  have h := filter_sellers_no_titles_or_all_errors_negative (fun _ => ToolResult.fail)
    { seller_name := some "A", seller_url := some "https://a", product_titles := some [] }
    (by simp)
  exact ⟨h.1, h.2 rfl⟩

/-- Claim C7: the response parser returns positive exactly when the reply
either contains the affirmative token はい and no negative token, or contains
the domain keyword アニメ and no negative token; every other reply is
negative. -/
theorem parse_gemini_response_positive_iff (r : String) :
    parse_gemini_response r = true ↔
      ((strContains r "はい" = true ∧
          ¬(strContains r "いいえ" = true ∨ strContains r "ではありません" = true ∨
            strContains r "ではない" = true)) ∨
       (strContains r "アニメ" = true ∧
          ¬(strContains r "いいえ" = true ∨ strContains r "ではありません" = true ∨
            strContains r "ではない" = true))) := by
  cases hA : strContains r "はい" <;> cases hN1 : strContains r "いいえ" <;>
    cases hN2 : strContains r "ではありません" <;> cases hN3 : strContains r "ではない" <;>
    cases hK : strContains r "アニメ" <;>
    simp [parse_gemini_response, hA, hN1, hN2, hN3, hK]

/-- A cons step of the intermediate export rows. -/
theorem export_intermediate_rows_cons (s : ExportSeller) (rest : List ExportSeller) :
    export_intermediate_rows (s :: rest) =
      (s.seller_name, s.seller_url, "未判定") :: export_intermediate_rows rest := rfl

/-- A cons step of the final export rows. -/
theorem export_final_rows_cons (s : ExportSeller) (rest : List ExportSeller) :
    export_final_rows (s :: rest) =
      (s.seller_name, s.seller_url, map_is_anime_seller s.is_anime_seller) ::
        export_final_rows rest := rfl

/-- Claim C8: the intermediate export emits one row per record with 未判定 in
every classification cell, regardless of the stored classification values;
the final export maps true to はい and false to いいえ in every row. -/
theorem csv_export_classification_cells (sellers : List ExportSeller) :
    (export_intermediate_rows sellers).length = sellers.length ∧
    (export_intermediate_rows sellers).map (fun row => row.2.2) =
      List.replicate sellers.length "未判定" ∧
    export_final_rows sellers =
      sellers.map (fun s =>
        (s.seller_name, s.seller_url, map_is_anime_seller s.is_anime_seller)) ∧
    map_is_anime_seller (some true) = "はい" ∧
    map_is_anime_seller (some false) = "いいえ" := by
  refine ⟨?_, ?_, ?_, rfl, rfl⟩
  · induction sellers with
    | nil => rfl
    | cons s rest ih =>
      rw [export_intermediate_rows_cons]
      simp [ih]
  · induction sellers with
    | nil => rfl
    | cons s rest ih =>
      rw [export_intermediate_rows_cons]
      simp [ih, List.replicate_succ]
  · induction sellers with
    | nil => rfl
    | cons s rest ih =>
      rw [export_final_rows_cons]
      simp [ih]

/-- Claim C9: the aggregator computes its backoff schedule as 2^i for
i = 1..3 and the marketplace agent hard-codes [2, 4, 8]; the two schedules
are equal as sequences, namely 2 s, 4 s and 8 s before the second, third and
next attempt. -/
theorem backoff_schedules_equal :
    rapras_retry_delays = yahoo_retry_delays ∧ yahoo_retry_delays = [2, 4, 8] :=
  ⟨rfl, rfl⟩

/-- Claim C10: `filter_sellers` preserves length and order; each output
record (whose type carries exactly the keys seller_name, seller_url and
is_anime_seller) copies seller_name with default Unknown, copies seller_url
with default empty string, and carries the classification of the titles. -/
theorem filter_sellers_shape_and_defaults (tool : String → ToolResult)
    (sellers : List SellerDict) :
    filter_sellers tool sellers =
      sellers.map (fun s =>
        { seller_name := s.seller_name.getD "Unknown"
          seller_url := s.seller_url.getD ""
          is_anime_seller := (filter_one tool (s.product_titles.getD [])).1 }) ∧
    (filter_sellers tool sellers).length = sellers.length := by
  have h : filter_sellers tool sellers =
      sellers.map (fun s =>
        { seller_name := s.seller_name.getD "Unknown"
          seller_url := s.seller_url.getD ""
          is_anime_seller := (filter_one tool (s.product_titles.getD [])).1 }) := by
    induction sellers with
    | nil => rfl
    | cons s rest ih => simp [filter_sellers, ih]
  exact ⟨h, by rw [h, List.length_map]⟩
